import Mathlib

/-!
Verification of the `ProjectTimeline` component of `static/js/timeline.js`
(UtilisationTracker).

The component manipulates JavaScript `Date` objects exclusively at calendar-day
precision (dates come from ISO `yyyy-mm-dd` strings and from whole-day / whole-
month arithmetic), so a date is embedded as a proleptic-Gregorian civil triple
`(year, month, day)` with JavaScript's month convention `0..11`, together with
an exact epoch-day count used for comparison and subtraction, mirroring the
ECMA-262 `Date` semantics that `timeline.js` relies on (`getMonth`, `setMonth`,
`setDate`, `getDay`, subtraction in milliseconds).

JavaScript numbers are embedded as exact rationals extended with `NaN` and the
two infinities (`JSNum`), so that the divide-by-zero behaviour of `dateToX`
with a degenerate date range is represented faithfully.  Float rounding is not
modelled; all quantities proved about are far from the regime where IEEE-754
rounding of day counts or pixel coordinates could move a value across the
stated bounds.  Canvas pixel painting is not modelled; the geometric outputs
(bar bounds) and the recorded hit-test element list are.
-/

/-- Model of the Gregorian leap-year rule used by ECMA-262 `Date`. -/
def isLeap (y : Int) : Bool :=
  (y % 4 == 0 && y % 100 != 0) || y % 400 == 0

/-- A calendar date in the JavaScript convention: `month` ranges over `0..11`.
This embeds a JS `Date` at day precision (all dates in `timeline.js` are
midnight-aligned, coming from ISO date strings and whole-day arithmetic). -/
structure CivilDate where
  year : Int
  month : Nat
  day : Int
deriving DecidableEq, Repr

/-- Number of days of month `m` (JS numbering `0..11`) of year `y`. -/
def daysInMonth (y : Int) (m : Nat) : Int :=
  match m with
  | 1 => if isLeap y then 29 else 28
  | 3 => 30
  | 5 => 30
  | 8 => 30
  | 10 => 30
  | _ => 31

/-- Cumulative days before month `m` in a non-leap year. -/
def cumDaysBeforeMonth (m : Nat) : Int :=
  match m with
  | 0 => 0
  | 1 => 31
  | 2 => 59
  | 3 => 90
  | 4 => 120
  | 5 => 151
  | 6 => 181
  | 7 => 212
  | 8 => 243
  | 9 => 273
  | 10 => 304
  | _ => 334

/-- Days elapsed in year `y` before the first of month `m` (JS numbering). -/
def daysBeforeMonth (y : Int) (m : Nat) : Int :=
  cumDaysBeforeMonth m + (if 2 ≤ m ∧ isLeap y then 1 else 0)

/-- Number of leap years in `[1, y]` (for `y ≥ 0`), extended to all of `Int`
by floor division. -/
def leapYearsUpto (y : Int) : Int :=
  y / 4 - y / 100 + y / 400

/-- Days from 1970-01-01 to the first of January of year `y` (negative for
earlier years). -/
def daysToYear (y : Int) : Int :=
  365 * (y - 1970) + (leapYearsUpto (y - 1) - leapYearsUpto 1969)

/-- Epoch day count of a civil date: days since 1970-01-01, the day-precision
image of the millisecond time value stored in a JS `Date`. -/
def epochDays (c : CivilDate) : Int :=
  daysToYear c.year + daysBeforeMonth c.year c.month + (c.day - 1)

/-- A well-formed civil date: month in `0..11`, day within the month. -/
def ValidDate (c : CivilDate) : Prop :=
  c.month < 12 ∧ 1 ≤ c.day ∧ c.day ≤ daysInMonth c.year c.month

instance (c : CivilDate) : Decidable (ValidDate c) := by
  unfold ValidDate; infer_instance

theorem daysInMonth_pos (y : Int) (m : Nat) : 1 ≤ daysInMonth y m := by
  unfold daysInMonth
  split <;> omega

theorem daysInMonth_le (y : Int) (m : Nat) : daysInMonth y m ≤ 31 := by
  unfold daysInMonth
  split <;> omega

theorem daysBeforeMonth_succ (y : Int) (m : Nat) (h : m + 1 ≤ 11) :
    daysBeforeMonth y (m + 1) = daysBeforeMonth y m + daysInMonth y m := by
  have h10 : m ≤ 10 := by omega
  interval_cases m <;>
    simp only [daysBeforeMonth, cumDaysBeforeMonth, daysInMonth] <;>
    split <;> simp_all

theorem daysToYear_succ (y : Int) :
    daysToYear (y + 1) = daysToYear y + (if isLeap y then 366 else 365) := by
  simp only [daysToYear, leapYearsUpto, isLeap, add_sub_cancel_right]
  split
  · rename_i h
    simp only [Bool.or_eq_true, Bool.and_eq_true, beq_iff_eq, bne_iff_ne] at h
    omega
  · rename_i h
    simp only [Bool.or_eq_true, Bool.and_eq_true, beq_iff_eq, bne_iff_ne] at h
    omega

/-- First day of the month following `c`'s month (the target of a JS
`setMonth(getMonth() + 1)` before day-of-month overflow is added back). -/
def nextMonthFirst (c : CivilDate) : CivilDate :=
  if c.month = 11 then ⟨c.year + 1, 0, 1⟩ else ⟨c.year, c.month + 1, 1⟩

/-- Last day of the month preceding `c`'s month. -/
def prevMonthLast (c : CivilDate) : CivilDate :=
  if c.month = 0 then ⟨c.year - 1, 11, 31⟩
  else ⟨c.year, c.month - 1, daysInMonth c.year (c.month - 1)⟩

/-- Fuel-indexed day addition on civil dates; `addDaysJS` supplies enough fuel.
This is the day-precision model of JS `date.setDate(date.getDate() + n)`
(ECMA-262 `MakeDay` normalization). -/
def addDaysAux : Nat → CivilDate → Int → CivilDate
  | 0, c, _ => c
  | fuel + 1, c, n =>
    if n = 0 then c
    else if 0 < n then
      (if n ≤ daysInMonth c.year c.month - c.day then ⟨c.year, c.month, c.day + n⟩
       else addDaysAux fuel (nextMonthFirst c) (n - (daysInMonth c.year c.month - c.day) - 1))
    else
      (if 1 ≤ c.day + n then ⟨c.year, c.month, c.day + n⟩
       else addDaysAux fuel (prevMonthLast c) (n + c.day))

/-- Model of JS `date.setDate(date.getDate() + n)`: add `n` days to a civil
date, with calendar normalization. -/
def addDaysJS (c : CivilDate) (n : Int) : CivilDate :=
  addDaysAux (n.natAbs + 1) c n

/-- Model of JS `date.setMonth(date.getMonth() + k)` for `k ≥ 0`: ECMA-262
`MakeDay(year, month + k, day)` is the first of the (normalized) target month
plus `day - 1` days, so a day-of-month larger than the target month's length
spills into the following month. -/
def setMonthPlus (c : CivilDate) (k : Nat) : CivilDate :=
  addDaysJS (nextMonthFirst^[k] ⟨c.year, c.month, 1⟩) (c.day - 1)

/-- Model of the `currentDate.setMonth(currentDate.getMonth() + 1)` step of the
monthly branch of `getTimePeriods`. -/
def setMonthNext (c : CivilDate) : CivilDate :=
  setMonthPlus c 1

theorem ValidDate_nextMonthFirst (c : CivilDate) (h : c.month < 12) :
    ValidDate (nextMonthFirst c) := by
  unfold nextMonthFirst
  split
  · exact ⟨show (0:Nat) < 12 by norm_num, show (1:Int) ≤ 1 from le_refl 1,
      daysInMonth_pos _ _⟩
  · rename_i hne
    exact ⟨show c.month + 1 < 12 by omega, show (1:Int) ≤ 1 from le_refl 1,
      daysInMonth_pos _ _⟩

theorem ValidDate_prevMonthLast (c : CivilDate) (h : c.month < 12) :
    ValidDate (prevMonthLast c) := by
  unfold prevMonthLast
  split
  · exact ⟨show (11:Nat) < 12 by norm_num, show (1:Int) ≤ 31 by norm_num,
      show (31:Int) ≤ daysInMonth (c.year - 1) 11 from by simp [daysInMonth]⟩
  · rename_i h0
    exact ⟨show c.month - 1 < 12 by omega, daysInMonth_pos _ _, le_refl _⟩

theorem epochDays_day (y : Int) (m : Nat) (d : Int) :
    epochDays ⟨y, m, d⟩ = epochDays ⟨y, m, 1⟩ + (d - 1) := by
  simp only [epochDays]
  ring

theorem epochDays_nextMonthFirst (c : CivilDate) (h : c.month < 12) :
    epochDays (nextMonthFirst c) =
      epochDays ⟨c.year, c.month, 1⟩ + daysInMonth c.year c.month := by
  unfold nextMonthFirst
  split
  · rename_i h11
    simp only [epochDays, h11, daysToYear_succ, daysBeforeMonth, cumDaysBeforeMonth,
      daysInMonth]
    split <;> simp_all <;> omega
  · rename_i hne
    have hle : c.month + 1 ≤ 11 := by omega
    simp only [epochDays, daysBeforeMonth_succ c.year c.month hle]
    ring

theorem epochDays_prevMonthLast (c : CivilDate) (h : c.month < 12) :
    epochDays (prevMonthLast c) = epochDays ⟨c.year, c.month, 1⟩ - 1 := by
  unfold prevMonthLast
  split
  · rename_i h0
    have hy := daysToYear_succ (c.year - 1)
    simp only [epochDays, h0, daysBeforeMonth, cumDaysBeforeMonth, daysInMonth]
    simp only [show c.year - 1 + 1 = c.year from by ring] at hy
    split <;> simp_all <;> omega
  · rename_i h0
    have hm : (c.month - 1) + 1 = c.month := by omega
    have hle : (c.month - 1) + 1 ≤ 11 := by omega
    have hstep := daysBeforeMonth_succ c.year (c.month - 1) hle
    rw [hm] at hstep
    simp only [epochDays, hstep]
    ring

theorem addDaysAux_spec (fuel : Nat) :
    ∀ (c : CivilDate) (n : Int), ValidDate c → n.natAbs < fuel →
      ValidDate (addDaysAux fuel c n) ∧
        epochDays (addDaysAux fuel c n) = epochDays c + n := by
  induction fuel with
  | zero => intro c n _ hf; omega
  | succ fuel ih =>
    rintro ⟨cy, cm, cd⟩ n hv hf
    obtain ⟨hm, hd1, hd2⟩ := hv
    dsimp only at hm hd1 hd2
    rw [addDaysAux]
    dsimp only
    split
    · rename_i h0
      subst h0
      exact ⟨⟨hm, hd1, hd2⟩, by ring⟩
    · rename_i h0
      split
      · rename_i hpos
        split
        · rename_i hfit
          refine ⟨⟨hm, show 1 ≤ cd + n by omega,
            show cd + n ≤ daysInMonth cy cm by omega⟩, ?_⟩
          rw [epochDays_day cy cm (cd + n), epochDays_day cy cm cd]
          ring
        · rename_i hbig
          push_neg at hbig
          have hrec := ih (nextMonthFirst ⟨cy, cm, cd⟩) (n - (daysInMonth cy cm - cd) - 1)
            (ValidDate_nextMonthFirst _ hm) (by omega)
          refine ⟨hrec.1, ?_⟩
          rw [hrec.2, epochDays_nextMonthFirst _ hm, epochDays_day cy cm cd]
          ring
      · rename_i hneg
        push_neg at hneg
        split
        · rename_i hfit
          refine ⟨⟨hm, show 1 ≤ cd + n by omega,
            show cd + n ≤ daysInMonth cy cm by omega⟩, ?_⟩
          rw [epochDays_day cy cm (cd + n), epochDays_day cy cm cd]
          ring
        · rename_i hlow
          push_neg at hlow
          have hrec := ih (prevMonthLast ⟨cy, cm, cd⟩) (n + cd)
            (ValidDate_prevMonthLast _ hm) (by omega)
          refine ⟨hrec.1, ?_⟩
          rw [hrec.2, epochDays_prevMonthLast _ hm, epochDays_day cy cm cd]
          ring

theorem addDaysJS_spec (c : CivilDate) (n : Int) (hv : ValidDate c) :
    ValidDate (addDaysJS c n) ∧ epochDays (addDaysJS c n) = epochDays c + n :=
  addDaysAux_spec (n.natAbs + 1) c n hv (by omega)

theorem setMonthNext_spec (c : CivilDate) (hv : ValidDate c) :
    ValidDate (setMonthNext c) ∧
      epochDays (setMonthNext c) = epochDays c + daysInMonth c.year c.month := by
  obtain ⟨hm, hd1, hd2⟩ := hv
  have hfirst : ValidDate (⟨c.year, c.month, 1⟩ : CivilDate) :=
    ⟨hm, le_refl 1, daysInMonth_pos _ _⟩
  have hnext := ValidDate_nextMonthFirst (⟨c.year, c.month, 1⟩ : CivilDate) hm
  have hadd := addDaysJS_spec (nextMonthFirst ⟨c.year, c.month, 1⟩) (c.day - 1) hnext
  unfold setMonthNext setMonthPlus
  rw [Function.iterate_one]
  refine ⟨hadd.1, ?_⟩
  rw [hadd.2, epochDays_nextMonthFirst ⟨c.year, c.month, 1⟩ hm]
  dsimp only
  have hc : epochDays c = epochDays ⟨c.year, c.month, 1⟩ + (c.day - 1) := by
    conv_lhs => rw [show c = ⟨c.year, c.month, c.day⟩ from rfl]
    exact epochDays_day c.year c.month c.day
  rw [hc]
  ring

theorem setMonthNext_lt (c : CivilDate) (hv : ValidDate c) :
    epochDays c < epochDays (setMonthNext c) := by
  have h := (setMonthNext_spec c hv).2
  have hp := daysInMonth_pos c.year c.month
  omega

theorem setMonthNext_iterate_spec (c : CivilDate) (hv : ValidDate c) (k : Nat) :
    ValidDate (setMonthNext^[k] c) ∧
      epochDays c ≤ epochDays (setMonthNext^[k] c) := by
  induction k with
  | zero => exact ⟨hv, le_refl _⟩
  | succ k ih =>
    rw [Function.iterate_succ_apply']
    have hstep := setMonthNext_spec _ ih.1
    have hp := daysInMonth_pos (setMonthNext^[k] c).year (setMonthNext^[k] c).month
    exact ⟨hstep.1, by omega⟩

/-- Exact JavaScript numbers: a rational value, `NaN`, or an infinity.  IEEE
rounding and negative zero are not modelled (see the header comment). -/
inductive JSNum where
  | num (q : ℚ)
  | nan
  | inf
  | ninf
deriving DecidableEq, Repr

/-- JS negation. -/
def jsNeg : JSNum → JSNum
  | .num a => .num (-a)
  | .nan => .nan
  | .inf => .ninf
  | .ninf => .inf

/-- JS addition. -/
def jsAdd : JSNum → JSNum → JSNum
  | .nan, _ => .nan
  | _, .nan => .nan
  | .num a, .num b => .num (a + b)
  | .inf, .ninf => .nan
  | .ninf, .inf => .nan
  | .inf, _ => .inf
  | _, .inf => .inf
  | .ninf, _ => .ninf
  | _, .ninf => .ninf

/-- JS subtraction. -/
def jsSub (a b : JSNum) : JSNum :=
  jsAdd a (jsNeg b)

/-- JS multiplication. -/
def jsMul : JSNum → JSNum → JSNum
  | .nan, _ => .nan
  | _, .nan => .nan
  | .num a, .num b => .num (a * b)
  | .inf, .num b => if b = 0 then .nan else if 0 < b then .inf else .ninf
  | .num a, .inf => if a = 0 then .nan else if 0 < a then .inf else .ninf
  | .ninf, .num b => if b = 0 then .nan else if 0 < b then .ninf else .inf
  | .num a, .ninf => if a = 0 then .nan else if 0 < a then .ninf else .inf
  | .inf, .inf => .inf
  | .inf, .ninf => .ninf
  | .ninf, .inf => .ninf
  | .ninf, .ninf => .inf

/-- JS division; in particular `0 / 0 = NaN` and `a / 0 = ±Infinity` for
`a ≠ 0` (no exception is ever raised). -/
def jsDiv : JSNum → JSNum → JSNum
  | .nan, _ => .nan
  | _, .nan => .nan
  | .num a, .num b =>
      if b = 0 then (if a = 0 then .nan else if 0 < a then .inf else .ninf)
      else .num (a / b)
  | .num _, .inf => .num 0
  | .num _, .ninf => .num 0
  | .inf, .num b => if 0 ≤ b then .inf else .ninf
  | .ninf, .num b => if 0 ≤ b then .ninf else .inf
  | .inf, _ => .nan
  | .ninf, _ => .nan

/-- JS `Math.max` (two arguments): `NaN` if either argument is `NaN`. -/
def jsMax : JSNum → JSNum → JSNum
  | .nan, _ => .nan
  | _, .nan => .nan
  | .num a, .num b => .num (max a b)
  | .inf, _ => .inf
  | _, .inf => .inf
  | .ninf, x => x
  | x, .ninf => x

/-- JS `<` comparison: any comparison with `NaN` is false. -/
def jsLt : JSNum → JSNum → Bool
  | .nan, _ => false
  | _, .nan => false
  | .num a, .num b => a < b
  | .inf, _ => false
  | _, .inf => true
  | .ninf, .ninf => false
  | .ninf, _ => true
  | _, .ninf => false

/-- A `phase` entry of a project (`timeline.js` dataset shape, spec section 6). -/
structure Phase where
  phase : String
  startDate : CivilDate
  endDate : CivilDate
  durationWeeks : Int
deriving DecidableEq, Repr

/-- A project row of the dataset. -/
structure Project where
  projectId : Int
  projectName : String
  customerName : String
  phases : List Phase
deriving DecidableEq, Repr

/-- The `dateRange` field of the dataset. -/
structure DateRange where
  minDate : CivilDate
  maxDate : CivilDate
deriving DecidableEq, Repr

/-- A timeline dataset; `dateRange` is an `Option` so that a dataset missing
its `dateRange` field (the malformed case of `updateData`) is representable. -/
structure Dataset where
  dateRange : Option DateRange
  projects : List Project
deriving DecidableEq, Repr

/-- Padding insets of the plot rectangle. -/
structure Padding where
  top : ℚ
  right : ℚ
  bottom : ℚ
  left : ℚ
deriving DecidableEq, Repr

/-- The construction options retained by the view (interaction callbacks and
the color map do not affect any verified property and are not modelled). -/
structure TLOptions where
  granularity : String
  rowHeight : ℚ
  padding : Padding
  showTooltips : Bool
deriving DecidableEq, Repr

/-- Screen-space bounding box of a recorded hit-test element. -/
structure Bounds where
  x : JSNum
  y : JSNum
  width : JSNum
  height : JSNum
deriving DecidableEq, Repr

/-- A recorded hit-test element (`this.elements` entries; their constant
`type: 'phase'` tag is omitted since only phase bars are ever recorded). -/
structure Element where
  project : Project
  phase : Phase
  bounds : Bounds
deriving DecidableEq, Repr

/-- The mutable state of a `ProjectTimeline` instance. -/
structure TLState where
  data : Dataset
  options : TLOptions
  canvasWidth : ℚ
  canvasHeight : ℚ
  padding : Padding
  plotWidth : ℚ
  plotHeight : ℚ
  rowHeight : ℚ
  startDate : CivilDate
  endDate : CivilDate
  totalDays : Int
  filteredProjectIds : Option (List Int)
  hoveredElement : Option Element
  elements : List Element
deriving DecidableEq, Repr

/-- Errors observable from `updateData`: the generic JS `TypeError` raised by
a property access on `undefined`, and the dedicated `InvalidDatasetError` the
specification names (no such error class exists anywhere in the source). -/
inductive JSError where
  | typeError (msg : String)
  | invalidDatasetError
deriving DecidableEq, Repr

/-- Source `calculateDaysBetween(date1, date2)`:
`Math.ceil((date2 - date1) / msPerDay)` with the date subtraction yielding
milliseconds. -/
def calculateDaysBetween (date1 date2 : CivilDate) : Int :=
  ⌈((epochDays date2 * 86400000 - epochDays date1 * 86400000 : Int) : ℚ) / 86400000⌉

theorem calculateDaysBetween_eq (date1 date2 : CivilDate) :
    calculateDaysBetween date1 date2 = epochDays date2 - epochDays date1 := by
  unfold calculateDaysBetween
  rw [show ((epochDays date2 * 86400000 - epochDays date1 * 86400000 : Int) : ℚ) =
    ((epochDays date2 - epochDays date1 : Int) : ℚ) * 86400000 by push_cast; ring]
  rw [mul_div_assoc, div_self (by norm_num), mul_one, Int.ceil_intCast]

/-- Source `dateToX(date) = padding.left + (daysSinceStart / totalDays) * plotWidth`,
in JS number arithmetic (division by a zero `totalDays` yields `NaN` or an
infinity, not an exception). -/
def dateToX (st : TLState) (date : CivilDate) : JSNum :=
  jsAdd (.num st.padding.left)
    (jsMul (jsDiv (.num ((calculateDaysBetween st.startDate date : Int) : ℚ))
                  (.num ((st.totalDays : Int) : ℚ)))
           (.num st.plotWidth))

/-- Source `xToDate(x)`: invert the ratio and add `Math.floor(days)` whole days to
`startDate` via `setDate`; `none` models the `Invalid Date` produced when the
day count is `NaN` or infinite. -/
def xToDate (st : TLState) (x : JSNum) : Option CivilDate :=
  let relativeX := jsSub x (.num st.padding.left)
  let ratio := jsDiv relativeX (.num st.plotWidth)
  let days := jsMul ratio (.num ((st.totalDays : Int) : ℚ))
  match days with
  | .num q => some (addDaysJS st.startDate ⌊q⌋)
  | _ => none

/-- Source `getWeekNumber(date)`: shift to the Thursday of the date's week
(`d.setDate(d.getDate() + 4 - (d.getDay() || 7))`, with `getDay` modelled as
`(epochDays + 4) mod 7` since 1970-01-01 was a Thursday), then
`Math.ceil((((d - yearStart) / 86400000) + 1) / 7)`. -/
def getWeekNumber (date : CivilDate) : Int :=
  let dow : Int := (epochDays date + 4) % 7
  let dowOr7 : Int := if dow = 0 then 7 else dow
  let d := addDaysJS date (4 - dowOr7)
  let yearStart : CivilDate := ⟨d.year, 0, 1⟩
  ⌈(((epochDays d * 86400000 - epochDays yearStart * 86400000 : Int) : ℚ) / 86400000 + 1) / 7⌉

/-- Source `getFilteredProjects()`: the full project list unless a non-empty filter
id list is set. -/
def getFilteredProjects (st : TLState) : List Project :=
  match st.filteredProjectIds with
  | some ids =>
      if 0 < ids.length then st.data.projects.filter (fun p => ids.contains p.projectId)
      else st.data.projects
  | none => st.data.projects

/-- Source `drawPhaseBar(project, phase, y)`: computes the bar geometry, skips the
bar if its width is below 1 (`if (width < 1) return`), otherwise draws it and
records a hit-test element; `none` models the skip. -/
def drawPhaseBar (st : TLState) (project : Project) (phase : Phase) (y : ℚ) :
    Option Element :=
  let startX := dateToX st phase.startDate
  let endX := dateToX st phase.endDate
  let width := jsMax (jsSub endX startX) (.num 2)
  if jsLt width (.num 1) then none
  else some { project := project, phase := phase,
              bounds := { x := startX, y := .num y, width := width, height := .num 30 } }

/-- Source `drawProjectBars()`: the hit-test elements recorded by one pass over the
filtered projects (row `index` at `y = padding.top + index * rowHeight + 5`). -/
def drawProjectBars (st : TLState) : List Element :=
  ((getFilteredProjects st).enum.map (fun ip =>
    ip.2.phases.filterMap (fun ph =>
      drawPhaseBar st ip.2 ph (st.padding.top + (ip.1 : ℚ) * st.rowHeight + 5)))).flatten

/-- Source `render()`: clears pixels and redraws; its only state effect is pushing
one hit-test element per drawn phase bar onto `this.elements` (which it does
NOT clear first). -/
def render (st : TLState) : TLState :=
  { st with elements := st.elements ++ drawProjectBars st }

/-- Source `refresh()`: `this.elements = []` followed by `render()`. -/
def refresh (st : TLState) : TLState :=
  render { st with elements := [] }

/-- Source `setGranularity(granularity)`: update and re-render only for one of the
three valid values; otherwise silently do nothing. -/
def setGranularity (st : TLState) (granularity : String) : TLState :=
  if ["weekly", "monthly", "quarterly"].contains granularity then
    render { st with options := { st.options with granularity := granularity } }
  else st

/-- Source `filterByProject(projectId)`. -/
def filterByProject (st : TLState) (projectId : Int) : TLState :=
  render { st with filteredProjectIds := some [projectId] }

/-- Source `showAllProjects()`. -/
def showAllProjects (st : TLState) : TLState :=
  render { st with filteredProjectIds := none }

/-- Source `updateDateRange(startDate, endDate)`: each bound is replaced only when
the corresponding argument is present (`if (startDate) ...`), then
`totalDays` is recomputed and the view re-rendered. -/
def updateDateRange (st : TLState) (startDate endDate : Option CivilDate) : TLState :=
  let st1 := match startDate with
    | some s => { st with startDate := s }
    | none => st
  let st2 := match endDate with
    | some e => { st1 with endDate := e }
    | none => st1
  render { st2 with totalDays := calculateDaysBetween st2.startDate st2.endDate }

/-- Source `setupCanvas()`: size the canvas from the container width and the project
count (device-pixel-ratio scaling is not modelled, `dpr = 1`). -/
def setupCanvas (st : TLState) (containerOffsetWidth : ℚ) : TLState :=
  { st with
      canvasWidth := containerOffsetWidth - 40,
      canvasHeight := max 400 ((st.data.projects.length : ℚ) * st.options.rowHeight + 150) }

/-- Source `calculateDimensions()`: recompute the plot rectangle and the time span
from `this.data.dateRange`; accessing `minDate` on a missing `dateRange`
raises a JS `TypeError`. -/
def calculateDimensions (st : TLState) : Except JSError TLState :=
  match st.data.dateRange with
  | none => .error (.typeError "Cannot read properties of undefined (reading minDate)")
  | some dr => .ok { st with
      padding := st.options.padding,
      plotWidth := st.canvasWidth - st.options.padding.left - st.options.padding.right,
      plotHeight := st.canvasHeight - st.options.padding.top - st.options.padding.bottom,
      rowHeight := st.options.rowHeight,
      startDate := dr.minDate,
      endDate := dr.maxDate,
      totalDays := calculateDaysBetween dr.minDate dr.maxDate }

/-- Source `updateData(newData)`: `this.data = newData; this.calculateDimensions();
this.setupCanvas(); this.render();` (in that order). -/
def updateData (st : TLState) (newData : Dataset) (containerOffsetWidth : ℚ) :
    Except JSError TLState :=
  match calculateDimensions { st with data := newData } with
  | .error e => .error e
  | .ok st2 => .ok (render (setupCanvas st2 containerOffsetWidth))

/-- One axis period produced by `getTimePeriods`. -/
structure Period where
  label : String
  date : CivilDate
  fullLabel : String
deriving DecidableEq, Repr

/-- Abbreviated en-US month name (`toLocaleDateString` with `month: 'short'`). -/
def monthShortName (m : Nat) : String :=
  match m with
  | 0 => "Jan" | 1 => "Feb" | 2 => "Mar" | 3 => "Apr" | 4 => "May" | 5 => "Jun"
  | 6 => "Jul" | 7 => "Aug" | 8 => "Sep" | 9 => "Oct" | 10 => "Nov" | _ => "Dec"

/-- Full en-US month name (`toLocaleDateString` with `month: 'long'`). -/
def monthLongName (m : Nat) : String :=
  match m with
  | 0 => "January" | 1 => "February" | 2 => "March" | 3 => "April"
  | 4 => "May" | 5 => "June" | 6 => "July" | 7 => "August"
  | 8 => "September" | 9 => "October" | 10 => "November" | _ => "December"

/-- Two-digit year (`toLocaleDateString` with `year: '2-digit'`). -/
def twoDigitYear (y : Int) : String :=
  (if y % 100 < 10 then "0" else "") ++ toString (y % 100)

/-- Last two characters of a string (JS `.slice(-2)`, used for the quarterly
label). -/
def lastTwoChars (s : String) : String :=
  s.drop (s.length - 2)

/-- Weekly branch of the `getTimePeriods` while-loop (fuel-indexed; the step
is `currentDate.setDate(currentDate.getDate() + 7)`). -/
def weeklyPeriodsAux : Nat → CivilDate → CivilDate → List Period
  | 0, _, _ => []
  | fuel + 1, cur, endD =>
    if epochDays cur ≤ epochDays endD then
      { label := "W" ++ toString (getWeekNumber cur),
        date := cur,
        fullLabel := "Week " ++ toString (getWeekNumber cur) ++ ", " ++ toString cur.year }
        :: weeklyPeriodsAux fuel (addDaysJS cur 7) endD
    else []

/-- Monthly branch of the `getTimePeriods` while-loop (fuel-indexed; the step
is `currentDate.setMonth(currentDate.getMonth() + 1)`). -/
def monthlyPeriodsAux : Nat → CivilDate → CivilDate → List Period
  | 0, _, _ => []
  | fuel + 1, cur, endD =>
    if epochDays cur ≤ epochDays endD then
      { label := monthShortName cur.month ++ " " ++ twoDigitYear cur.year,
        date := cur,
        fullLabel := monthLongName cur.month ++ " " ++ toString cur.year }
        :: monthlyPeriodsAux fuel (setMonthNext cur) endD
    else []

/-- Quarterly branch of the `getTimePeriods` while-loop (fuel-indexed; the
step is `currentDate.setMonth(currentDate.getMonth() + 3)`). -/
def quarterlyPeriodsAux : Nat → CivilDate → CivilDate → List Period
  | 0, _, _ => []
  | fuel + 1, cur, endD =>
    if epochDays cur ≤ epochDays endD then
      { label := "Q" ++ toString ((cur.month : Int) / 3 + 1) ++ " '" ++
          lastTwoChars (toString cur.year),
        date := cur,
        fullLabel := "Q" ++ toString ((cur.month : Int) / 3 + 1) ++ " " ++ toString cur.year }
        :: quarterlyPeriodsAux fuel (setMonthPlus cur 3) endD
    else []

/-- Fuel bound for the `getTimePeriods` loops: every step advances the date by
at least one day, so `(endDate - startDate) + 1` iterations always reach the
loop exit. -/
def timeFuel (st : TLState) : Nat :=
  (epochDays st.endDate - epochDays st.startDate).toNat + 1

/-- Source `getTimePeriods()`: `switch (this.options.granularity)` over the three
loops; any other granularity string returns an empty list. -/
def getTimePeriods (st : TLState) : List Period :=
  match st.options.granularity with
  | "weekly" => weeklyPeriodsAux (timeFuel st) st.startDate st.endDate
  | "monthly" => monthlyPeriodsAux (timeFuel st) st.startDate st.endDate
  | "quarterly" => quarterlyPeriodsAux (timeFuel st) st.startDate st.endDate
  | _ => []

theorem dateToX_num (st : TLState) (d : CivilDate) (h : st.totalDays ≠ 0) :
    dateToX st d = .num (st.padding.left +
      ((epochDays d - epochDays st.startDate : Int) : ℚ) / ((st.totalDays : Int) : ℚ) *
        st.plotWidth) := by
  unfold dateToX
  rw [calculateDaysBetween_eq]
  rw [jsDiv, if_neg (by simpa using h)]
  rw [jsMul, jsAdd]

theorem dateToX_zero_same (st : TLState) (d : CivilDate) (h : st.totalDays = 0)
    (hsame : epochDays d = epochDays st.startDate) : dateToX st d = .nan := by
  unfold dateToX
  rw [calculateDaysBetween_eq, hsame]
  simp [jsDiv, jsMul, jsAdd, h]

theorem dateToX_zero_later (st : TLState) (d : CivilDate) (h : st.totalDays = 0)
    (hlater : epochDays st.startDate < epochDays d) (hw : 0 < st.plotWidth) :
    dateToX st d = .inf := by
  have hne : ((epochDays d - epochDays st.startDate : Int) : ℚ) ≠ 0 := by
    simp only [ne_eq, Int.cast_eq_zero]
    omega
  have hpos : (0 : ℚ) < ((epochDays d - epochDays st.startDate : Int) : ℚ) := by
    rw [Int.cast_pos]
    omega
  have hdiv : jsDiv (.num ((epochDays d - epochDays st.startDate : Int) : ℚ))
      (.num ((st.totalDays : Int) : ℚ)) = .inf := by
    rw [jsDiv, if_pos (show ((st.totalDays : Int) : ℚ) = 0 by rw [h]; norm_num),
      if_neg hne, if_pos hpos]
  unfold dateToX
  rw [calculateDaysBetween_eq, hdiv]
  simp only [jsMul]
  rw [if_neg hw.ne', if_pos hw]
  simp [jsAdd]

/-- Record updates never change the fields `drawProjectBars` reads, other than
through the listed ones, so replacing `elements` leaves its output unchanged. -/
theorem drawProjectBars_set_elements (st : TLState) (e : List Element) :
    drawProjectBars { st with elements := e } = drawProjectBars st := rfl

/-- Sample phase used by the concrete instantiations below. -/
def samplePhase : Phase :=
  { phase := "Plan", startDate := ⟨2024, 0, 1⟩, endDate := ⟨2024, 0, 7⟩, durationWeeks := 2 }

/-- Sample project used by the concrete instantiations below. -/
def sampleProject : Project :=
  { projectId := 1, projectName := "Alpha HCM Rollout", customerName := "Acme",
    phases := [samplePhase] }

/-- Sample date range: January 2024. -/
def sampleDateRange : DateRange :=
  { minDate := ⟨2024, 0, 1⟩, maxDate := ⟨2024, 0, 31⟩ }

/-- Sample well-formed dataset. -/
def sampleDataset : Dataset :=
  { dateRange := some sampleDateRange, projects := [sampleProject] }

/-- The default padding of the component. -/
def defaultPadding : Padding :=
  { top := 60, right := 20, bottom := 40, left := 250 }

/-- A concrete view state as produced by constructing the component on
`sampleDataset` with default options and a 1000px canvas. -/
def baseState : TLState :=
  { data := sampleDataset,
    options := { granularity := "weekly", rowHeight := 40, padding := defaultPadding,
                 showTooltips := true },
    canvasWidth := 1000, canvasHeight := 400,
    padding := defaultPadding,
    plotWidth := 730, plotHeight := 300,
    rowHeight := 40,
    startDate := ⟨2024, 0, 1⟩, endDate := ⟨2024, 0, 31⟩,
    totalDays := 30,
    filteredProjectIds := none, hoveredElement := none, elements := [] }

/-- The hit-test element recorded for `samplePhase` in `baseState`. -/
def sampleElement : Element :=
  { project := sampleProject, phase := samplePhase,
    bounds := { x := .num 250, y := .num 65, width := .num 146, height := .num 30 } }

theorem dateToX_base_start : dateToX baseState ⟨2024, 0, 1⟩ = .num 250 := by
  rw [dateToX_num baseState ⟨2024, 0, 1⟩ (by decide)]
  rw [show epochDays ⟨2024, 0, 1⟩ - epochDays baseState.startDate = 0 from by decide]
  norm_num [baseState, defaultPadding]

theorem dateToX_base_jan7 : dateToX baseState ⟨2024, 0, 7⟩ = .num 396 := by
  rw [dateToX_num baseState ⟨2024, 0, 7⟩ (by decide)]
  rw [show epochDays ⟨2024, 0, 7⟩ - epochDays baseState.startDate = 6 from by decide]
  norm_num [baseState, defaultPadding]

theorem drawProjectBars_baseState : drawProjectBars baseState = [sampleElement] := by
  have h1 := dateToX_base_start
  have h7 := dateToX_base_jan7
  unfold drawProjectBars getFilteredProjects drawPhaseBar
  simp only [show baseState.filteredProjectIds = none from rfl,
    show baseState.data.projects = [sampleProject] from rfl,
    show sampleProject.phases = [samplePhase] from rfl,
    show samplePhase.startDate = ⟨2024, 0, 1⟩ from rfl,
    show samplePhase.endDate = ⟨2024, 0, 7⟩ from rfl,
    List.enum, List.map, List.filterMap, h1, h7]
  norm_num [jsSub, jsNeg, jsAdd, jsMax, jsLt, baseState, defaultPadding, sampleElement]

theorem setMonthNext_iterate_le (c : CivilDate) (hv : ValidDate c) (k : Nat) :
    epochDays c ≤ epochDays (setMonthNext^[k] c) :=
  (setMonthNext_iterate_spec c hv k).2

theorem monthlyPeriodsAux_get? (fuel : Nat) :
    ∀ (cur endD : CivilDate), ValidDate cur →
      epochDays endD < epochDays cur + fuel →
      ∀ k : Nat, (monthlyPeriodsAux fuel cur endD).get? k =
        if epochDays (setMonthNext^[k] cur) ≤ epochDays endD then
          some { label := monthShortName (setMonthNext^[k] cur).month ++ " " ++
                   twoDigitYear (setMonthNext^[k] cur).year,
                 date := setMonthNext^[k] cur,
                 fullLabel := monthLongName (setMonthNext^[k] cur).month ++ " " ++
                   toString (setMonthNext^[k] cur).year }
        else none := by
  induction fuel with
  | zero =>
    intro cur endD hv hf k
    rw [monthlyPeriodsAux]
    rw [if_neg (show ¬ epochDays (setMonthNext^[k] cur) ≤ epochDays endD by
      have := setMonthNext_iterate_le cur hv k
      omega)]
    simp
  | succ fuel ih =>
    intro cur endD hv hf k
    rw [monthlyPeriodsAux]
    split
    · rename_i hcur
      cases k with
      | zero =>
        rw [if_pos (by simpa using hcur)]
        simp
      | succ k =>
        have hstep := setMonthNext_spec cur hv
        have hdim := daysInMonth_pos cur.year cur.month
        have hrec := ih (setMonthNext cur) endD hstep.1 (by omega) k
        rw [List.get?_cons_succ, hrec, Function.iterate_succ_apply]
    · rename_i hcur
      rw [if_neg (show ¬ epochDays (setMonthNext^[k] cur) ≤ epochDays endD by
        have := setMonthNext_iterate_le cur hv k
        omega)]
      simp

/-- The state obtained by collapsing the date range to a single day through
the public interface, as in the spec scenario for claim C1. -/
def degenerateState : TLState :=
  updateDateRange baseState (some ⟨2024, 0, 1⟩) (some ⟨2024, 0, 1⟩)

/-- C1: the claim says that with `totalDays = 0` (minDate = maxDate),
`dateToX` returns `padding.left` for every date.  The code has no zero guard:
`ratio = daysSinceStart / this.totalDays` is a JS division by zero, so
`dateToX(minDate) = NaN` (0/0) and `dateToX(d) = Infinity` for any later date;
no bar renders at `x = left`.  This theorem evaluates the code at the failing
input from the spec scenario (`updateDateRange(start, end)` with
`end = start = 2024-01-01`). -/
theorem claimC1_dateToX_degenerate_range :
    degenerateState.totalDays = 0 ∧
    dateToX degenerateState ⟨2024, 0, 1⟩ = JSNum.nan ∧
    dateToX degenerateState ⟨2024, 0, 2⟩ = JSNum.inf ∧
    dateToX degenerateState ⟨2024, 0, 1⟩ ≠ JSNum.num degenerateState.padding.left := by
  have hT : degenerateState.totalDays = 0 := by
    simp only [degenerateState, updateDateRange, render, calculateDaysBetween_eq]
    omega
  have hs : degenerateState.startDate = ⟨2024, 0, 1⟩ := rfl
  have hnan : dateToX degenerateState ⟨2024, 0, 1⟩ = JSNum.nan :=
    dateToX_zero_same degenerateState ⟨2024, 0, 1⟩ hT (by rw [hs])
  refine ⟨hT, hnan, ?_, ?_⟩
  · refine dateToX_zero_later degenerateState ⟨2024, 0, 2⟩ hT ?_ ?_
    · rw [hs]; decide
    · show (0 : ℚ) < (730 : ℚ)
      norm_num
  · rw [hnan]
    simp

/-- C2 counterexample: the claim says the hit-test element list is fully
rebuilt on every `render()` (exactly one entry per bar drawn in that render,
no stale entries).  `render()` never clears `this.elements`; with one project
and one phase, two consecutive renders leave two entries, not one. -/
theorem claimC2_render_retains_stale_elements :
    (render (render baseState)).elements.length = 2 ∧
    (render (render baseState)).elements.length ≠ 1 := by
  have hb : (render baseState).elements = [sampleElement] := by
    show baseState.elements ++ drawProjectBars baseState = [sampleElement]
    rw [drawProjectBars_baseState]
    rfl
  have hbb : (render (render baseState)).elements = [sampleElement, sampleElement] := by
    show (render baseState).elements ++ drawProjectBars (render baseState) = _
    rw [hb, show drawProjectBars (render baseState) = drawProjectBars baseState from rfl,
      drawProjectBars_baseState]
    rfl
  rw [hbb]
  exact ⟨rfl, by simp⟩

/-- C2 amended: `render()` appends one hit-test element per phase bar drawn in
that render to the existing list, so entries recorded by earlier renders
persist across re-renders; only `refresh()` resets the list, and after a
`refresh()` the list holds exactly the elements of that render. -/
theorem claimC2_render_appends_refresh_rebuilds (st : TLState) :
    (render st).elements = st.elements ++ drawProjectBars st ∧
    (refresh st).elements = drawProjectBars st := by
  refine ⟨rfl, ?_⟩
  show ({ st with elements := ([] : List Element) } : TLState).elements ++
      drawProjectBars { st with elements := ([] : List Element) } = drawProjectBars st
  rw [drawProjectBars_set_elements]
  exact List.nil_append _

/-- A state currently hovering over a phase bar. -/
def hoverState : TLState :=
  { baseState with hoveredElement := some sampleElement }

/-- C8 counterexample: the claim says every data or state change clears
`hoveredElement`.  `setGranularity('monthly')` (a valid value) re-renders but
leaves `hoveredElement` untouched. -/
theorem claimC8_setGranularity_keeps_hover :
    (setGranularity hoverState "monthly").hoveredElement = some sampleElement ∧
    (setGranularity hoverState "monthly").hoveredElement ≠ none := by
  have h : (setGranularity hoverState "monthly").hoveredElement = some sampleElement := by
    unfold setGranularity
    rw [if_pos (by decide)]
    rfl
  exact ⟨h, by rw [h]; simp⟩

/-- C8 amended: none of `updateData`, `setGranularity`, `filterByProject`,
`showAllProjects`, `updateDateRange` clears `hoveredElement`; all five preserve
it unchanged (it is only ever changed by the pointer-move and pointer-leave
handlers), so a stale tooltip can be drawn on the next render. -/
theorem claimC8_mutators_preserve_hover (st : TLState) (g : String) (pid : Int)
    (s e : Option CivilDate) (nd : Dataset) (cw : ℚ) :
    (setGranularity st g).hoveredElement = st.hoveredElement ∧
    (filterByProject st pid).hoveredElement = st.hoveredElement ∧
    (showAllProjects st).hoveredElement = st.hoveredElement ∧
    (updateDateRange st s e).hoveredElement = st.hoveredElement ∧
    (match updateData st nd cw with
     | .ok st2 => st2.hoveredElement = st.hoveredElement
     | .error _ => True) := by
  refine ⟨?_, rfl, rfl, ?_, ?_⟩
  · unfold setGranularity
    split <;> rfl
  · cases s <;> cases e <;> rfl
  · unfold updateData calculateDimensions
    cases hnd : nd.dateRange <;> simp [hnd, render, setupCanvas]

/-- C9: `updateDateRange(start, end)` replaces each bound only when the
corresponding argument is present (truthy); in every case `totalDays` is
recomputed from the resulting (startDate, endDate) pair, so one-sided updates
are possible through the public interface. -/
theorem claimC9_updateDateRange_partial_update (st : TLState) (s e : Option CivilDate) :
    (updateDateRange st s e).startDate = s.getD st.startDate ∧
    (updateDateRange st s e).endDate = e.getD st.endDate ∧
    (updateDateRange st s e).totalDays =
      calculateDaysBetween (s.getD st.startDate) (e.getD st.endDate) := by
  cases s <;> cases e <;> simp [updateDateRange, render]

/-- C10: a null or empty `filteredProjectIds` behaves as no filter at all
(`getFilteredProjects` returns the full project list), and a non-empty list
restricts to the listed ids; the result is always a sublist of the original
project list (order preserved). -/
theorem claimC10_getFilteredProjects_semantics (st : TLState) :
    (getFilteredProjects st = match st.filteredProjectIds with
      | some (i :: is) => st.data.projects.filter (fun p => (i :: is).contains p.projectId)
      | _ => st.data.projects) ∧
    (getFilteredProjects st).Sublist st.data.projects := by
  rcases hf : st.filteredProjectIds with _ | ids
  · constructor <;> simp [getFilteredProjects, hf]
  · cases ids with
    | nil => constructor <;> simp [getFilteredProjects, hf]
    | cons i is =>
      constructor
      · simp [getFilteredProjects, hf]
      · simp only [getFilteredProjects, hf]
        rw [if_pos (by simp)]
        exact List.filter_sublist _

/-- A dataset whose `dateRange` field is missing. -/
def noRangeDataset : Dataset :=
  { dateRange := none, projects := [sampleProject] }

/-- C3 counterexample: the claim says a dataset without `dateRange` makes
`updateData` signal a dedicated `InvalidDatasetError`.  No such error class
exists in the source: `calculateDimensions` evaluates
`this.data.dateRange.minDate` and raises the generic JS `TypeError` for a
property access on `undefined`. -/
theorem claimC3_updateData_generic_typeError :
    updateData baseState noRangeDataset 800 =
      .error (.typeError "Cannot read properties of undefined (reading minDate)") ∧
    updateData baseState noRangeDataset 800 ≠ .error .invalidDatasetError := by
  have h : updateData baseState noRangeDataset 800 =
      .error (.typeError "Cannot read properties of undefined (reading minDate)") := rfl
  exact ⟨h, by rw [h]; simp⟩

/-- C3 amended: `updateData` on a dataset lacking `dateRange` throws the
generic JS `TypeError` from the undefined property access in
`calculateDimensions` (not a dedicated `InvalidDatasetError`, which does not
exist in the source); on a dataset with a `dateRange` it succeeds, recomputing
the layout (span, plot rectangle) from the new data, resizing the canvas from
the container width and new project count, and re-rendering. -/
theorem claimC3_updateData_behavior (st : TLState) (ds : Dataset) (cw : ℚ) :
    (ds.dateRange = none →
      updateData st ds cw =
        .error (.typeError "Cannot read properties of undefined (reading minDate)")) ∧
    (∀ dr, ds.dateRange = some dr → ∃ st2,
      updateData st ds cw = .ok st2 ∧
      st2.data = ds ∧
      st2.startDate = dr.minDate ∧
      st2.endDate = dr.maxDate ∧
      st2.totalDays = calculateDaysBetween dr.minDate dr.maxDate ∧
      st2.plotWidth = st.canvasWidth - st.options.padding.left - st.options.padding.right ∧
      st2.padding = st.options.padding ∧
      st2.canvasWidth = cw - 40 ∧
      st2.canvasHeight = max 400 ((ds.projects.length : ℚ) * st.options.rowHeight + 150) ∧
      st2.elements = st.elements ++ drawProjectBars st2) := by
  constructor
  · intro h
    unfold updateData calculateDimensions
    rw [show ({ st with data := ds } : TLState).data.dateRange = none from h]
  · intro dr h
    unfold updateData calculateDimensions
    rw [show ({ st with data := ds } : TLState).data.dateRange = some dr from h]
    exact ⟨_, rfl, rfl, rfl, rfl, rfl, rfl, rfl, rfl, rfl, rfl⟩

/-- C3 witness: concrete instantiation of the amended behaviour at a
well-formed and at a malformed dataset. -/
theorem claimC3_updateData_behavior_witness :
    (match updateData baseState sampleDataset 800 with
      | .ok _ => True
      | .error _ => False) ∧
    updateData baseState noRangeDataset 800 =
      .error (.typeError "Cannot read properties of undefined (reading minDate)") := by
  constructor
  · obtain ⟨st2, h1, _⟩ :=
      (claimC3_updateData_behavior baseState sampleDataset 800).2 sampleDateRange rfl
    rw [h1]
    trivial
  · exact (claimC3_updateData_behavior baseState noRangeDataset 800).1 rfl

/-- C7: every phase bar is drawn with its left edge at
`dateToX(phase.startDate)` and a rendered width `max(endX - startX, 2) ≥ 2`
pixels; consequently no recorded bar is ever narrower than 1 pixel, so the
claim's skip clause (bars narrower than 1 px are skipped entirely) holds
vacuously — the `if (width < 1) return` branch of `drawPhaseBar` is
unreachable for a finite coordinate system (`totalDays ≠ 0`). -/
theorem claimC7_drawPhaseBar_min_width (st : TLState) (p : Project) (ph : Phase) (y : ℚ)
    (h : st.totalDays ≠ 0) :
    ∃ b, drawPhaseBar st p ph y = some b ∧
      b.bounds.x = dateToX st ph.startDate ∧
      ∃ w : ℚ, b.bounds.width = .num w ∧ 2 ≤ w ∧ ¬ w < 1 := by
  have hs := dateToX_num st ph.startDate h
  have he := dateToX_num st ph.endDate h
  simp only [drawPhaseBar]
  rw [hs, he]
  rw [show jsSub
      (.num (st.padding.left + ((epochDays ph.endDate - epochDays st.startDate : Int) : ℚ) /
        ((st.totalDays : Int) : ℚ) * st.plotWidth))
      (.num (st.padding.left + ((epochDays ph.startDate - epochDays st.startDate : Int) : ℚ) /
        ((st.totalDays : Int) : ℚ) * st.plotWidth)) =
      .num (((epochDays ph.endDate - epochDays st.startDate : Int) : ℚ) /
        ((st.totalDays : Int) : ℚ) * st.plotWidth -
        ((epochDays ph.startDate - epochDays st.startDate : Int) : ℚ) /
        ((st.totalDays : Int) : ℚ) * st.plotWidth) from by
    simp [jsSub, jsNeg, jsAdd]
    try ring]
  rw [show jsMax (.num (((epochDays ph.endDate - epochDays st.startDate : Int) : ℚ) /
        ((st.totalDays : Int) : ℚ) * st.plotWidth -
        ((epochDays ph.startDate - epochDays st.startDate : Int) : ℚ) /
        ((st.totalDays : Int) : ℚ) * st.plotWidth)) (.num 2) =
      .num (max (((epochDays ph.endDate - epochDays st.startDate : Int) : ℚ) /
        ((st.totalDays : Int) : ℚ) * st.plotWidth -
        ((epochDays ph.startDate - epochDays st.startDate : Int) : ℚ) /
        ((st.totalDays : Int) : ℚ) * st.plotWidth) 2) from by simp [jsMax]]
  have h2 : (2 : ℚ) ≤ max (((epochDays ph.endDate - epochDays st.startDate : Int) : ℚ) /
      ((st.totalDays : Int) : ℚ) * st.plotWidth -
      ((epochDays ph.startDate - epochDays st.startDate : Int) : ℚ) /
      ((st.totalDays : Int) : ℚ) * st.plotWidth) 2 := le_max_right _ _
  rw [if_neg (show ¬ (jsLt (.num _) (.num 1) = true) from by
    simp only [jsLt, decide_eq_true_eq]
    intro hlt
    have := lt_of_le_of_lt h2 hlt
    norm_num at this)]
  exact ⟨_, rfl, rfl, _, rfl, h2, by intro hlt; exact absurd (lt_of_le_of_lt h2 hlt) (by norm_num)⟩

/-- C7 witness: the sample phase in the base state renders as a bar at
x = 250 with finite width at least 2. -/
theorem claimC7_drawPhaseBar_min_width_witness :
    baseState.totalDays ≠ 0 ∧
    ∃ b, drawPhaseBar baseState sampleProject samplePhase 65 = some b ∧
      b.bounds.x = dateToX baseState samplePhase.startDate ∧
      ∃ w : ℚ, b.bounds.width = .num w ∧ 2 ≤ w ∧ ¬ w < 1 :=
  ⟨by decide, claimC7_drawPhaseBar_min_width baseState sampleProject samplePhase 65 (by decide)⟩

/-- C5: for a date D in range with a positive `totalDays` (and a non-degenerate
plot width), `xToDate(dateToX(D))` is a valid date differing from D by at most
one day; in this day-precision model the round trip is in fact exact, because
`daysBetween` is a whole number of days and `Math.floor` is the identity on
it. -/
theorem claimC5_xToDate_dateToX_roundtrip (st : TLState) (D : CivilDate)
    (hv : ValidDate st.startDate)
    (hmin : epochDays st.startDate ≤ epochDays D)
    (hmax : epochDays D ≤ epochDays st.endDate)
    (ht : 0 < st.totalDays) (hw : st.plotWidth ≠ 0) :
    ∃ DR, xToDate st (dateToX st D) = some DR ∧
      (epochDays DR - epochDays D).natAbs ≤ 1 := by
  have hx := dateToX_num st D ht.ne'
  have hTne : ((st.totalDays : Int) : ℚ) ≠ 0 := by
    simp only [ne_eq, Int.cast_eq_zero]
    omega
  simp only [xToDate]
  rw [hx]
  rw [show jsSub
      (.num (st.padding.left + ((epochDays D - epochDays st.startDate : Int) : ℚ) /
        ((st.totalDays : Int) : ℚ) * st.plotWidth))
      (.num st.padding.left) =
      .num (((epochDays D - epochDays st.startDate : Int) : ℚ) /
        ((st.totalDays : Int) : ℚ) * st.plotWidth) from by
    simp [jsSub, jsNeg, jsAdd]
    try ring]
  rw [show jsDiv
      (.num (((epochDays D - epochDays st.startDate : Int) : ℚ) /
        ((st.totalDays : Int) : ℚ) * st.plotWidth))
      (.num st.plotWidth) =
      .num (((epochDays D - epochDays st.startDate : Int) : ℚ) /
        ((st.totalDays : Int) : ℚ)) from by
    rw [jsDiv, if_neg hw]
    rw [mul_div_cancel_right₀ _ hw]]
  rw [show jsMul
      (.num (((epochDays D - epochDays st.startDate : Int) : ℚ) /
        ((st.totalDays : Int) : ℚ)))
      (.num ((st.totalDays : Int) : ℚ)) =
      .num ((epochDays D - epochDays st.startDate : Int) : ℚ) from by
    rw [jsMul]
    rw [div_mul_cancel₀ _ hTne]]
  refine ⟨addDaysJS st.startDate (epochDays D - epochDays st.startDate), ?_, ?_⟩
  · simp only [Int.floor_intCast]
  · have hadd := (addDaysJS_spec st.startDate (epochDays D - epochDays st.startDate) hv).2
    omega

/-- C5 witness: round trip of 2024-01-15 in the base state. -/
theorem claimC5_xToDate_dateToX_roundtrip_witness :
    (0 : Int) < baseState.totalDays ∧
    ∃ DR, xToDate baseState (dateToX baseState ⟨2024, 0, 15⟩) = some DR ∧
      (epochDays DR - epochDays ⟨2024, 0, 15⟩).natAbs ≤ 1 :=
  ⟨by decide, claimC5_xToDate_dateToX_roundtrip baseState ⟨2024, 0, 15⟩ (by decide)
    (by decide) (by decide) (by decide) (show (730 : ℚ) ≠ 0 by norm_num)⟩

theorem weekCeil_eq (a b : Int) :
    ⌈(((a * 86400000 - b * 86400000 : Int) : ℚ) / 86400000 + 1) / 7⌉ =
      ⌈((a - b + 1 : Int) : ℚ) / 7⌉ := by
  congr 1
  have hq : ((a * 86400000 - b * 86400000 : Int) : ℚ) / 86400000 = ((a - b : Int) : ℚ) := by
    push_cast
    field_simp
    ring
  rw [hq]
  push_cast
  ring

/-- C6: `getWeekNumber` follows the ISO-8601 week rule (the week containing
the year's first Thursday is week 1) on the spec's two mandated instances:
Jan 1, 2024 (a Monday) is week 1, and Dec 31, 2023 (a Sunday) is week 52 of
2023. -/
theorem claimC6_getWeekNumber_iso_instances :
    getWeekNumber ⟨2024, 0, 1⟩ = 1 ∧ getWeekNumber ⟨2023, 11, 31⟩ = 52 := by
  constructor
  · simp only [getWeekNumber]
    rw [show ((epochDays ⟨2024, 0, 1⟩ + 4) % 7 : Int) = 1 from by decide,
      if_neg (show ¬(1 : Int) = 0 by norm_num),
      show addDaysJS ⟨2024, 0, 1⟩ (4 - 1) = ⟨2024, 0, 4⟩ from by decide]
    dsimp only
    rw [show epochDays ⟨2024, 0, 4⟩ = 19726 from by decide,
      show epochDays ⟨2024, 0, 1⟩ = 19723 from by decide,
      weekCeil_eq 19726 19723,
      show (19726 - 19723 + 1 : Int) = 4 from by decide]
    rw [Int.ceil_eq_iff]
    constructor <;> norm_num
  · simp only [getWeekNumber]
    rw [show ((epochDays ⟨2023, 11, 31⟩ + 4) % 7 : Int) = 0 from by decide,
      if_pos (show (0 : Int) = 0 from rfl),
      show addDaysJS ⟨2023, 11, 31⟩ (4 - 7) = ⟨2023, 11, 28⟩ from by decide]
    dsimp only
    rw [show epochDays ⟨2023, 11, 28⟩ = 19719 from by decide,
      show epochDays ⟨2023, 0, 1⟩ = 19358 from by decide,
      weekCeil_eq 19719 19358,
      show (19719 - 19358 + 1 : Int) = 362 from by decide]
    rw [Int.ceil_eq_iff]
    constructor <;> norm_num

/-- A monthly-granularity view whose range runs from Jan 31, 2024 to
Mar 1, 2024 (months Jan, Feb, Mar). -/
def monthlySkipState : TLState :=
  { baseState with
      data := { dateRange := some ⟨⟨2024, 0, 31⟩, ⟨2024, 2, 1⟩⟩,
                projects := [sampleProject] },
      options := { baseState.options with granularity := "monthly" },
      startDate := ⟨2024, 0, 31⟩, endDate := ⟨2024, 2, 1⟩, totalDays := 30 }

/-- C4 counterexample: the claim says monthly bucketing yields exactly one
period per calendar month from minDate's month through maxDate's month (here
Jan, Feb, Mar 2024: three periods).  The loop keeps minDate's day-of-month, so
from Jan 31 the step `setMonth(month + 1)` normalizes Feb 31 to Mar 2, which
exceeds maxDate = Mar 1: the code produces a single period (February is
skipped and March omitted), not three. -/
theorem claimC4_monthly_periods_skip_months :
    (getTimePeriods monthlySkipState).map Period.label = ["Jan 24"] ∧
    (getTimePeriods monthlySkipState).length = 1 ∧
    (getTimePeriods monthlySkipState).length ≠ 3 := by
  refine ⟨?_, ?_, ?_⟩ <;> decide

/-- C4 amended: under monthly granularity, `getTimePeriods` produces one
period per application of the JS `setMonth(month + 1)` step starting at
minDate, for exactly those step dates that are at most maxDate; the k-th
period's date is the k-th step date, its label is the abbreviated month name
and 2-digit year of that date, and the step dates strictly increase (so no
period is duplicated).  Because the step keeps minDate's day-of-month,
calendar months can be skipped by day-overflow normalization and maxDate's
month can be omitted — coverage of every calendar month holds only when
minDate is the first of its month. -/
theorem claimC4_monthly_periods_step_characterization (st : TLState)
    (hg : st.options.granularity = "monthly") (hv : ValidDate st.startDate) :
    (∀ k : Nat, (getTimePeriods st).get? k =
      if epochDays (setMonthNext^[k] st.startDate) ≤ epochDays st.endDate then
        some { label := monthShortName (setMonthNext^[k] st.startDate).month ++ " " ++
                 twoDigitYear (setMonthNext^[k] st.startDate).year,
               date := setMonthNext^[k] st.startDate,
               fullLabel := monthLongName (setMonthNext^[k] st.startDate).month ++ " " ++
                 toString (setMonthNext^[k] st.startDate).year }
      else none) ∧
    (∀ k : Nat, epochDays (setMonthNext^[k] st.startDate) <
      epochDays (setMonthNext^[k + 1] st.startDate)) := by
  have hm : getTimePeriods st = monthlyPeriodsAux (timeFuel st) st.startDate st.endDate := by
    unfold getTimePeriods
    rw [hg]
    rfl
  constructor
  · intro k
    rw [hm]
    exact monthlyPeriodsAux_get? (timeFuel st) st.startDate st.endDate hv
      (by unfold timeFuel; omega) k
  · intro k
    rw [Function.iterate_succ_apply']
    exact setMonthNext_lt _ (setMonthNext_iterate_spec st.startDate hv k).1

/-- A monthly-granularity view on the base January 2024 range. -/
def monthlyState : TLState :=
  { baseState with options := { baseState.options with granularity := "monthly" } }

/-- C4 witness: the characterization applied to the concrete monthly view;
consecutive step dates strictly increase. -/
theorem claimC4_monthly_periods_step_characterization_witness :
    epochDays (setMonthNext^[0] monthlyState.startDate) <
      epochDays (setMonthNext^[0 + 1] monthlyState.startDate) :=
  (claimC4_monthly_periods_step_characterization monthlyState rfl (by decide)).2 0
